import Mathlib

/-!
Verification of the `pancard` library (PAN validator / decoder).

The Python sources are shallowly embedded: a Python `str` is a `List Char`,
a raised `InvalidPANError` is the `Except.error` case, and each method of
`PANValidator` / `PANDecoder` becomes a total Lean function.

Character-class primitives (`str.isspace`, `str.isalpha`, `str.isdigit`,
`str.upper`) are Unicode-aware in Python.  They are modelled here exactly on
the Latin-1 range (code points below 0x100), which covers every character
appearing in this development; outside that range `pyIsAlpha` / `pyIsDigit` /
`pyIsSpace` are modelled as false and `pyUpper` as the identity.  All
universally quantified theorems below are statements about this model.
-/

namespace Pancard

/-- Models Python `str.isspace` for a single character, exact on Latin-1:
space, TAB, LF, VT, FF, CR, the file/group/record/unit separators
U+001C..U+001F, NEL U+0085 and NBSP U+00A0. -/
def pyIsSpace (c : Char) : Bool :=
  decide (c.toNat = 32 ∨ c.toNat = 9 ∨ c.toNat = 10 ∨ c.toNat = 11 ∨
    c.toNat = 12 ∨ c.toNat = 13 ∨ (28 ≤ c.toNat ∧ c.toNat ≤ 31) ∨
    c.toNat = 133 ∨ c.toNat = 160)

/-- Models Python `str.isalpha` for a single character, exact on Latin-1:
ASCII letters, the ordinal indicators U+00AA/U+00BA, micro sign U+00B5, and
the Latin-1 letters U+00C0..U+00D6, U+00D8..U+00F6, U+00F8..U+00FF. -/
def pyIsAlpha (c : Char) : Bool :=
  decide ((65 ≤ c.toNat ∧ c.toNat ≤ 90) ∨ (97 ≤ c.toNat ∧ c.toNat ≤ 122) ∨
    c.toNat = 0xAA ∨ c.toNat = 0xB5 ∨ c.toNat = 0xBA ∨
    (0xC0 ≤ c.toNat ∧ c.toNat ≤ 0xD6) ∨ (0xD8 ≤ c.toNat ∧ c.toNat ≤ 0xF6) ∨
    (0xF8 ≤ c.toNat ∧ c.toNat ≤ 0xFF))

/-- Models Python `str.isdigit` for a single character, exact on Latin-1:
ASCII digits plus the superscript digits U+00B2, U+00B3, U+00B9. -/
def pyIsDigit (c : Char) : Bool :=
  decide ((48 ≤ c.toNat ∧ c.toNat ≤ 57) ∨ c.toNat = 0xB2 ∨ c.toNat = 0xB3 ∨
    c.toNat = 0xB9)

/-- Models Python `str.upper` character-wise: exact on ASCII (maps a..z to
A..Z); modelled as the identity on all other code points, which is exact for
every non-ASCII code point used in this development (they are uppercase or
caseless already). -/
def pyUpper (c : Char) : Char :=
  if 97 ≤ c.toNat ∧ c.toNat ≤ 122 then Char.ofNat (c.toNat - 32) else c

/-- Models Python `str.strip()`: remove leading and trailing whitespace. -/
def pyStrip (l : List Char) : List Char :=
  ((l.dropWhile pyIsSpace).reverse.dropWhile pyIsSpace).reverse

/-- The normalization `pan_number.strip().upper()` applied by the validator
(`validator.py` line 42) and the decoder (`decoder.py` line 53). -/
def normalize (l : List Char) : List Char :=
  (pyStrip l).map pyUpper

/-- Python indexing `s[i]` as used on already-validated 10-character strings;
total here with a NUL default (the sources only index within bounds). -/
def charAt (l : List Char) (i : Nat) : Char :=
  l.getD i (Char.ofNat 0)

/-- A character matched by the regex class `[A-Z]`. -/
def isUpperAZ (c : Char) : Bool :=
  decide (65 ≤ c.toNat ∧ c.toNat ≤ 90)

/-- A character matched by the regex class `[0-9]`. -/
def isAsciiDigit (c : Char) : Bool :=
  decide (48 ≤ c.toNat ∧ c.toNat ≤ 57)

/-- The anchored regex `PAN_PATTERN = r'^[A-Z]{5}[0-9]{4}[A-Z]$'` of
`validator.py` line 20: exactly ten characters, five uppercase ASCII
letters, four ASCII digits, one uppercase ASCII letter. -/
def matchesPanPattern (p : List Char) : Bool :=
  match p with
  | [c0, c1, c2, c3, c4, d0, d1, d2, d3, c9] =>
    isUpperAZ c0 && isUpperAZ c1 && isUpperAZ c2 && isUpperAZ c3 &&
    isUpperAZ c4 && isAsciiDigit d0 && isAsciiDigit d1 && isAsciiDigit d2 &&
    isAsciiDigit d3 && isUpperAZ c9
  | _ => false

/-- The `valid_fourth_chars` list of `PANValidator._validate_structure`
(`validator.py` line 66); `validate_strict` uses a dict with the same keys
in the same order. -/
def validFourthChars : List Char :=
  ['P', 'C', 'H', 'F', 'A', 'T', 'B', 'L', 'J', 'G']

/-- `PANValidator._validate_structure` (`validator.py` lines 55-71): the
fourth character must be one of the holder-type codes. -/
def validateStructure (p : List Char) : Bool :=
  validFourthChars.contains (charAt p 3)

/-- `PANValidator.validate` (`validator.py` lines 25-53): falsy input is
rejected, then the input is normalized, and the length check, the regex
check and the structural check are applied in turn. -/
def validate (l : List Char) : Bool :=
  if l = [] then false
  else if (normalize l).length ≠ 10 then false
  else if !matchesPanPattern (normalize l) then false
  else validateStructure (normalize l)

/-- The `InvalidPANError` exception of `exceptions.py`, carrying its
message. -/
structure InvalidPANError where
  message : String
deriving DecidableEq, Repr

instance {ε α : Type} [DecidableEq ε] [DecidableEq α] : DecidableEq (Except ε α) := fun
  | .error e, .error f =>
    if h : e = f then isTrue (congrArg Except.error h)
    else isFalse (fun hc => h (Except.error.inj hc))
  | .error _, .ok _ => isFalse (fun hc => Except.noConfusion hc)
  | .ok _, .error _ => isFalse (fun hc => Except.noConfusion hc)
  | .ok a, .ok b =>
    if h : a = b then isTrue (congrArg Except.ok h)
    else isFalse (fun hc => h (Except.ok.inj hc))

/-- Python `str.isalpha` on a string slice: true iff the slice is nonempty
and every character is alphabetic. -/
def pyStrIsAlpha (s : List Char) : Bool :=
  !s.isEmpty && s.all pyIsAlpha

/-- Python `str.isdigit` on a string slice: true iff the slice is nonempty
and every character is a digit. -/
def pyStrIsDigit (s : List Char) : Bool :=
  !s.isEmpty && s.all pyIsDigit

/-- `PANValidator.validate_strict` (`validator.py` lines 73-122): same
normalization as `validate`, but the first violated rule raises an
`InvalidPANError` with a specific message; `True` is returned when every
check passes. -/
def validate_strict (l : List Char) : Except InvalidPANError Bool :=
  if l = [] then .error ⟨"PAN number cannot be empty"⟩
  else if (normalize l).length ≠ 10 then
    .error ⟨"PAN must be exactly 10 characters, got " ++
      toString (normalize l).length⟩
  else if !pyStrIsAlpha ((normalize l).take 5) then
    .error ⟨"First 5 characters must be alphabets"⟩
  else if !pyStrIsDigit (((normalize l).drop 5).take 4) then
    .error ⟨"Characters 6-9 must be digits"⟩
  else if !pyIsAlpha (charAt (normalize l) 9) then
    .error ⟨"Last character must be an alphabet"⟩
  else if !(validFourthChars.contains (charAt (normalize l) 3)) then
    .error ⟨"Fourth character \x27" ++ String.mk [charAt (normalize l) 3] ++
      "\x27 is invalid. Must be one of: P, C, H, F, A, T, B, L, J, G"⟩
  else .ok true

/-- The `holder_types` mapping of `PANDecoder.__init__` (`decoder.py`
lines 19-30), from the fourth character to the holder category. -/
def holder_types : List (Char × String) :=
  [('P', "Individual (Person)"),
   ('C', "Company"),
   ('H', "Hindu Undivided Family (HUF)"),
   ('F', "Firm/Partnership Firm"),
   ('A', "Association of Persons (AOP)"),
   ('T', "Trust (AOP)"),
   ('B', "Body of Individuals (BOI)"),
   ('L', "Local Authority"),
   ('J', "Artificial Juridical Person"),
   ('G', "Government")]

/-- The `descriptions` dict of `PANDecoder._get_holder_description`
(`decoder.py` lines 152-163). -/
def holderDescriptions : List (Char × String) :=
  [('P', "Individual taxpayer (most common type)"),
   ('C', "Company registered under the Companies Act"),
   ('H', "Hindu Undivided Family - a specific form of family arrangement recognized under Hindu Law"),
   ('F', "Partnership Firm or Limited Liability Partnership"),
   ('A', "Association of Persons or a body of individuals or a local authority or an artificial juridical person"),
   ('T', "Trust entities including public or private trusts"),
   ('B', "Body of Individuals - group of individuals carrying on business"),
   ('L', "Local Authority like Municipalities, Panchayats, etc."),
   ('J', "Artificial Juridical Person not covered above"),
   ('G', "Government agencies and departments")]

/-- `PANDecoder._get_holder_description` (`decoder.py` lines 142-164). -/
def getHolderDescription (code : Char) : String :=
  (List.lookup code holderDescriptions).getD "Unknown holder type"

/-- The `structure` entry of the decoded record,
`PANDecoder._get_structure_info` (`decoder.py` lines 70-86). -/
structure StructureInfo where
  pattern : String
  total_length : Nat
  alphabets_count : Nat
  digits_count : Nat
  format : String
deriving DecidableEq, Repr

/-- One entry of the `components` dict: a literal value plus descriptive
strings; `category` is absent for `first_three_letters`. -/
structure ComponentInfo where
  value : List Char
  meaning : String
  category : Option String
deriving DecidableEq, Repr

/-- The `components` entry of the decoded record,
`PANDecoder._get_components` (`decoder.py` lines 88-123). -/
structure Components where
  first_three_letters : ComponentInfo
  fourth_letter : ComponentInfo
  fifth_letter : ComponentInfo
  next_four_digits : ComponentInfo
  last_letter : ComponentInfo
deriving DecidableEq, Repr

/-- The `holder_type` entry of the decoded record,
`PANDecoder._get_holder_type` (`decoder.py` lines 125-140). -/
structure HolderTypeInfo where
  code : Char
  type : String
  description : String
deriving DecidableEq, Repr

/-- One entry of the `detailed_breakdown` list,
`PANDecoder._get_detailed_breakdown` (`decoder.py` lines 166-219). -/
structure BreakdownEntry where
  position : Nat
  character : Char
  type : String
  purpose : String
deriving DecidableEq, Repr

/-- The record returned by `PANDecoder.decode` (`decoder.py` lines 59-66);
the source dict key `structure` is a Lean keyword, embedded here as
`structure_info`. -/
structure DecodedPAN where
  pan_number : List Char
  is_valid : Bool
  structure_info : StructureInfo
  components : Components
  holder_type : HolderTypeInfo
  detailed_breakdown : List BreakdownEntry
deriving DecidableEq, Repr

/-- `PANDecoder._get_structure_info` (`decoder.py` lines 70-86). -/
def getStructureInfo (p : List Char) : StructureInfo :=
  { pattern := "AAAAA9999A",
    total_length := 10,
    alphabets_count := 6,
    digits_count := 4,
    format := String.mk (p.take 5) ++ " (alphabets) + " ++
      String.mk ((p.drop 5).take 4) ++ " (digits) + " ++
      String.mk [charAt p 9] ++ " (alphabet)" }

/-- `PANDecoder._get_components` (`decoder.py` lines 88-123). -/
def getComponents (p : List Char) : Components :=
  { first_three_letters :=
      { value := p.take 3,
        meaning := "Alphabetic series running from AAA to ZZZ",
        category := none },
    fourth_letter :=
      { value := [charAt p 3],
        meaning := (List.lookup (charAt p 3) holder_types).getD "Unknown",
        category := some "Status of the PAN holder" },
    fifth_letter :=
      { value := [charAt p 4],
        meaning := "First character of the PAN holder\x27s last name/surname",
        category := some "Name initial" },
    next_four_digits :=
      { value := (p.drop 5).take 4,
        meaning := "Sequential number running from 0001 to 9999",
        category := some "Unique identification number" },
    last_letter :=
      { value := [charAt p 9],
        meaning := "Alphabetic check digit",
        category := some "Check character for verification" } }

/-- `PANDecoder._get_holder_type` (`decoder.py` lines 125-140). -/
def getHolderType (p : List Char) : HolderTypeInfo :=
  { code := charAt p 3,
    type := (List.lookup (charAt p 3) holder_types).getD "Unknown",
    description := getHolderDescription (charAt p 3) }

/-- The per-character entry built by the loop body of
`PANDecoder._get_detailed_breakdown` for zero-based index `i`. -/
def breakdownEntry (i : Nat) (c : Char) : BreakdownEntry :=
  if i < 3 then
    { position := i + 1, character := c, type := "Alphabet",
      purpose := "Part of alphabetic series (AAA-ZZZ)" }
  else if i = 3 then
    { position := i + 1, character := c, type := "Alphabet",
      purpose := "Holder status - " ++
        (List.lookup c holder_types).getD "Unknown" }
  else if i = 4 then
    { position := i + 1, character := c, type := "Alphabet",
      purpose := "First letter of surname/last name" }
  else if i ≤ 8 then
    { position := i + 1, character := c, type := "Digit",
      purpose := "Sequential number (digit " ++ toString (i - 4) ++ " of 4)" }
  else
    { position := i + 1, character := c, type := "Alphabet",
      purpose := "Check digit for validation" }

/-- `PANDecoder._get_detailed_breakdown` (`decoder.py` lines 166-219):
one entry per character, in enumeration order. -/
def getDetailedBreakdown (p : List Char) : List BreakdownEntry :=
  p.enum.map fun ic => breakdownEntry ic.1 ic.2

/-- `PANDecoder.decode` (`decoder.py` lines 37-68): falsy input raises the
empty-input error; otherwise the input is normalized, re-validated through
`PANValidator.validate`, and on success the full record is assembled. -/
def decode (l : List Char) : Except InvalidPANError DecodedPAN :=
  if l = [] then .error ⟨"PAN number cannot be empty"⟩
  else if !(validate (normalize l)) then
    .error ⟨"Invalid PAN format: " ++ String.mk (normalize l)⟩
  else .ok
    { pan_number := normalize l,
      is_valid := true,
      structure_info := getStructureInfo (normalize l),
      components := getComponents (normalize l),
      holder_type := getHolderType (normalize l),
      detailed_breakdown := getDetailedBreakdown (normalize l) }

/-- `PANDecoder.get_summary` (`decoder.py` lines 221-242): decodes, then
renders the template sentence.  Note the f-string interpolates the original
`pan_number` argument, not the normalized copy inside the record. -/
def get_summary (l : List Char) : Except InvalidPANError String :=
  match decode l with
  | .error e => .error e
  | .ok d => .ok ("PAN " ++ String.mk l ++ " belongs to a " ++
      d.holder_type.type ++ ". The surname/last name starts with \x27" ++
      String.mk d.components.fifth_letter.value ++
      "\x27. The unique identification number is " ++
      String.mk d.components.next_four_digits.value ++ ".")

/-- A character below code point 128; inputs made only of such characters
are the ASCII fragment on which the model is exact in every primitive. -/
def isAsciiChar (c : Char) : Bool :=
  decide (c.toNat < 128)

lemma toNat_ofNat_valid {n : Nat} (hv : n.isValidChar) :
    (Char.ofNat n).toNat = n := by
  simp only [Char.ofNat, hv, dite_true, Char.ofNatAux, Char.toNat]
  rfl

lemma char_eq_of_toNat_eq {c d : Char} (h : c.toNat = d.toNat) : c = d := by
  have h1 := Char.ofNat_toNat c
  have h2 := Char.ofNat_toNat d
  rw [h] at h1
  rw [← h1]
  exact h2

lemma pyUpper_toNat (c : Char) :
    (pyUpper c).toNat =
      if 97 ≤ c.toNat ∧ c.toNat ≤ 122 then c.toNat - 32 else c.toNat := by
  unfold pyUpper
  by_cases h : 97 ≤ c.toNat ∧ c.toNat ≤ 122
  · rw [if_pos h, if_pos h]
    exact toNat_ofNat_valid (Or.inl (by omega))
  · rw [if_neg h, if_neg h]

lemma pyIsSpace_pyUpper (c : Char) : pyIsSpace (pyUpper c) = pyIsSpace c := by
  simp only [pyIsSpace, pyUpper_toNat]
  by_cases h : 97 ≤ c.toNat ∧ c.toNat ≤ 122
  · rw [if_pos h]
    exact decide_eq_decide.mpr (by omega)
  · rw [if_neg h]

lemma pyUpper_idem (c : Char) : pyUpper (pyUpper c) = pyUpper c := by
  apply char_eq_of_toNat_eq
  rw [pyUpper_toNat, pyUpper_toNat]
  by_cases h : 97 ≤ c.toNat ∧ c.toNat ≤ 122
  · simp only [if_pos h]
    rw [if_neg (by omega)]
  · simp only [if_neg h]

lemma dropWhile_idem {α : Type} (p : α → Bool) (l : List α) :
    (l.dropWhile p).dropWhile p = l.dropWhile p := by
  induction l with
  | nil => rfl
  | cons a t ih =>
    by_cases h : p a
    · simp [List.dropWhile_cons, h, ih]
    · simp [List.dropWhile_cons, h]

lemma head?_dropWhile_false {α : Type} (p : α → Bool) (l : List α) {a : α}
    (h : (l.dropWhile p).head? = some a) : p a = false := by
  induction l with
  | nil => simp at h
  | cons b t ih =>
    by_cases hb : p b
    · rw [List.dropWhile_cons, if_pos hb] at h
      exact ih h
    · rw [List.dropWhile_cons, if_neg hb] at h
      simp only [List.head?_cons, Option.some.injEq] at h
      subst h
      simp only [Bool.not_eq_true] at hb
      exact hb

lemma dropWhile_eq_self_of_head {α : Type} (p : α → Bool) (l : List α)
    (h : ∀ a, l.head? = some a → p a = false) : l.dropWhile p = l := by
  cases l with
  | nil => rfl
  | cons b t =>
    rw [List.dropWhile_cons, if_neg]
    simp [h b rfl]

lemma pyStrip_idem (l : List Char) : pyStrip (pyStrip l) = pyStrip l := by
  unfold pyStrip
  have hstep1 :
      ((((l.dropWhile pyIsSpace).reverse.dropWhile pyIsSpace).reverse).dropWhile
        pyIsSpace) =
      ((l.dropWhile pyIsSpace).reverse.dropWhile pyIsSpace).reverse := by
    apply dropWhile_eq_self_of_head
    intro a ha
    obtain ⟨t, ht⟩ :=
      List.dropWhile_suffix (l := (l.dropWhile pyIsSpace).reverse) pyIsSpace
    have hm2 : l.dropWhile pyIsSpace =
        ((l.dropWhile pyIsSpace).reverse.dropWhile pyIsSpace).reverse ++
          t.reverse := by
      calc l.dropWhile pyIsSpace
          = (l.dropWhile pyIsSpace).reverse.reverse := by
            rw [List.reverse_reverse]
        _ = (t ++ (l.dropWhile pyIsSpace).reverse.dropWhile pyIsSpace).reverse := by
            rw [ht]
        _ = ((l.dropWhile pyIsSpace).reverse.dropWhile pyIsSpace).reverse ++
              t.reverse := by
            rw [List.reverse_append]
    have hma : (l.dropWhile pyIsSpace).head? = some a := by
      cases hzr : ((l.dropWhile pyIsSpace).reverse.dropWhile pyIsSpace).reverse with
      | nil => rw [hzr] at ha; simp at ha
      | cons b bs =>
        rw [hzr] at ha
        simp only [List.head?_cons, Option.some.injEq] at ha
        rw [hm2, hzr, List.cons_append, List.head?_cons, ha]
    exact head?_dropWhile_false pyIsSpace l hma
  rw [hstep1, List.reverse_reverse, dropWhile_idem]

lemma pyStrip_map_pyUpper (l : List Char) :
    pyStrip (l.map pyUpper) = (pyStrip l).map pyUpper := by
  have hpf : (pyIsSpace ∘ pyUpper) = pyIsSpace := funext pyIsSpace_pyUpper
  unfold pyStrip
  rw [List.dropWhile_map, hpf, ← List.map_reverse, List.dropWhile_map, hpf,
    ← List.map_reverse]

lemma normalize_nil : normalize [] = [] := rfl

lemma normalize_idem (l : List Char) : normalize (normalize l) = normalize l := by
  unfold normalize
  rw [pyStrip_map_pyUpper, pyStrip_idem, List.map_map,
    show (pyUpper ∘ pyUpper) = pyUpper from funext pyUpper_idem]

lemma validate_normalize (l : List Char) :
    validate (normalize l) = validate l := by
  by_cases h0 : l = []
  · subst h0; rfl
  · unfold validate
    rw [normalize_idem, if_neg h0]
    by_cases h1 : normalize l = []
    · rw [if_pos h1]
      simp [h1]
    · rw [if_neg h1]

lemma validate_true_iff (l : List Char) :
    validate l = true ↔
      ((normalize l).length = 10 ∧ matchesPanPattern (normalize l) = true ∧
        validFourthChars.contains (charAt (normalize l) 3) = true) := by
  unfold validate validateStructure
  split_ifs with h0 h1 h2 <;> simp_all [normalize_nil]

lemma strict_ok_iff (l : List Char) :
    validate_strict l = .ok true ↔
      (l ≠ [] ∧ (normalize l).length = 10 ∧
        pyStrIsAlpha ((normalize l).take 5) = true ∧
        pyStrIsDigit (((normalize l).drop 5).take 4) = true ∧
        pyIsAlpha (charAt (normalize l) 9) = true ∧
        validFourthChars.contains (charAt (normalize l) 3) = true) := by
  unfold validate_strict
  split_ifs with h0 h1 h2 h3 h4 h5 <;> simp_all

lemma isUpperAZ_pyIsAlpha {c : Char} (h : isUpperAZ c = true) :
    pyIsAlpha c = true := by
  simp only [isUpperAZ, decide_eq_true_eq] at h
  simp only [pyIsAlpha, decide_eq_true_eq]
  omega

lemma isAsciiDigit_pyIsDigit {c : Char} (h : isAsciiDigit c = true) :
    pyIsDigit c = true := by
  simp only [isAsciiDigit, decide_eq_true_eq] at h
  simp only [pyIsDigit, decide_eq_true_eq]
  omega

lemma pyIsAlpha_isUpperAZ {c : Char} (hA : c.toNat < 128)
    (hL : ¬(97 ≤ c.toNat ∧ c.toNat ≤ 122)) (h : pyIsAlpha c = true) :
    isUpperAZ c = true := by
  simp only [pyIsAlpha, decide_eq_true_eq] at h
  simp only [isUpperAZ, decide_eq_true_eq]
  omega

lemma pyIsDigit_isAsciiDigit {c : Char} (hA : c.toNat < 128)
    (h : pyIsDigit c = true) : isAsciiDigit c = true := by
  simp only [pyIsDigit, decide_eq_true_eq] at h
  simp only [isAsciiDigit, decide_eq_true_eq]
  omega

lemma mem_of_pyStrip {l : List Char} {c : Char} (h : c ∈ pyStrip l) :
    c ∈ l := by
  unfold pyStrip at h
  rw [List.mem_reverse] at h
  have h2 := (List.dropWhile_sublist (l := (l.dropWhile pyIsSpace).reverse)
    pyIsSpace).subset h
  rw [List.mem_reverse] at h2
  exact (List.dropWhile_sublist (l := l) pyIsSpace).subset h2

lemma mem_normalize_not_lower {l : List Char} {c : Char}
    (hc : c ∈ normalize l) : ¬(97 ≤ c.toNat ∧ c.toNat ≤ 122) := by
  unfold normalize at hc
  obtain ⟨d, _, rfl⟩ := List.mem_map.mp hc
  rw [pyUpper_toNat]
  by_cases h : 97 ≤ d.toNat ∧ d.toNat ≤ 122
  · rw [if_pos h]; omega
  · rw [if_neg h]; omega

lemma mem_normalize_ascii {l : List Char} (hl : l.all isAsciiChar = true)
    {c : Char} (hc : c ∈ normalize l) : c.toNat < 128 := by
  unfold normalize at hc
  obtain ⟨d, hd, rfl⟩ := List.mem_map.mp hc
  have hdl : d ∈ l := mem_of_pyStrip hd
  have hda := List.all_eq_true.mp hl d hdl
  simp only [isAsciiChar, decide_eq_true_eq] at hda
  rw [pyUpper_toNat]
  split <;> omega

lemma exists_ten {p : List Char} (h : p.length = 10) :
    ∃ a0 a1 a2 a3 a4 a5 a6 a7 a8 a9,
      p = [a0, a1, a2, a3, a4, a5, a6, a7, a8, a9] := by
  rcases p with _ | ⟨a0, p⟩; · simp at h
  rcases p with _ | ⟨a1, p⟩; · simp at h
  rcases p with _ | ⟨a2, p⟩; · simp at h
  rcases p with _ | ⟨a3, p⟩; · simp at h
  rcases p with _ | ⟨a4, p⟩; · simp at h
  rcases p with _ | ⟨a5, p⟩; · simp at h
  rcases p with _ | ⟨a6, p⟩; · simp at h
  rcases p with _ | ⟨a7, p⟩; · simp at h
  rcases p with _ | ⟨a8, p⟩; · simp at h
  rcases p with _ | ⟨a9, p⟩; · simp at h
  have hp : p = [] := by
    simp only [List.length_cons] at h
    exact List.length_eq_zero.mp (by omega)
  subst hp
  exact ⟨a0, a1, a2, a3, a4, a5, a6, a7, a8, a9, rfl⟩

lemma validate_nonempty {l : List Char} (h : validate l = true) : l ≠ [] := by
  intro he
  subst he
  exact absurd h (by decide)

lemma decode_eq_ok {l : List Char} (h : validate l = true) :
    decode l = .ok
      { pan_number := normalize l,
        is_valid := true,
        structure_info := getStructureInfo (normalize l),
        components := getComponents (normalize l),
        holder_type := getHolderType (normalize l),
        detailed_breakdown := getDetailedBreakdown (normalize l) } := by
  have hvn : validate (normalize l) = true := by
    rw [validate_normalize]; exact h
  unfold decode
  rw [if_neg (validate_nonempty h), hvn]
  rfl

lemma validate_imp_strict {l : List Char} (h : validate l = true) :
    validate_strict l = .ok true := by
  obtain ⟨h10, hpat, h4⟩ := (validate_true_iff l).mp h
  obtain ⟨a0, a1, a2, a3, a4, a5, a6, a7, a8, a9, hp⟩ := exists_ten h10
  rw [hp] at hpat
  simp only [matchesPanPattern, Bool.and_eq_true] at hpat
  obtain ⟨⟨⟨⟨⟨⟨⟨⟨⟨hu0, hu1⟩, hu2⟩, hu3⟩, hu4⟩, hd0⟩, hd1⟩, hd2⟩, hd3⟩, hu9⟩ := hpat
  rw [strict_ok_iff]
  refine ⟨validate_nonempty h, h10, ?_, ?_, ?_, h4⟩
  · rw [hp]
    have b0 := isUpperAZ_pyIsAlpha hu0
    have b1 := isUpperAZ_pyIsAlpha hu1
    have b2 := isUpperAZ_pyIsAlpha hu2
    have b3 := isUpperAZ_pyIsAlpha hu3
    have b4 := isUpperAZ_pyIsAlpha hu4
    simp [pyStrIsAlpha, b0, b1, b2, b3, b4]
  · rw [hp]
    have e0 := isAsciiDigit_pyIsDigit hd0
    have e1 := isAsciiDigit_pyIsDigit hd1
    have e2 := isAsciiDigit_pyIsDigit hd2
    have e3 := isAsciiDigit_pyIsDigit hd3
    simp [pyStrIsDigit, e0, e1, e2, e3]
  · rw [hp]
    exact isUpperAZ_pyIsAlpha hu9

lemma strict_imp_validate_of_ascii {l : List Char}
    (hA : l.all isAsciiChar = true) (h : validate_strict l = .ok true) :
    validate l = true := by
  obtain ⟨hne, h10, ha5, hd4, ha9, h4⟩ := (strict_ok_iff l).mp h
  obtain ⟨a0, a1, a2, a3, a4, a5, a6, a7, a8, a9, hp⟩ := exists_ten h10
  have hasc : ∀ c ∈ normalize l, c.toNat < 128 :=
    fun c hc => mem_normalize_ascii hA hc
  have hlow : ∀ c ∈ normalize l, ¬(97 ≤ c.toNat ∧ c.toNat ≤ 122) :=
    fun c hc => mem_normalize_not_lower hc
  rw [hp] at ha5 hd4 ha9
  simp only [List.take, pyStrIsAlpha, pyStrIsDigit, List.isEmpty_cons,
    Bool.not_false, List.all_cons, List.all_nil, Bool.and_true, Bool.true_and,
    Bool.and_eq_true, List.drop] at ha5 hd4
  obtain ⟨b0, b1, b2, b3, b4⟩ := ha5
  obtain ⟨e0, e1, e2, e3⟩ := hd4
  have b9 : pyIsAlpha a9 = true := ha9
  have m0 : a0 ∈ normalize l := by rw [hp]; simp
  have m1 : a1 ∈ normalize l := by rw [hp]; simp
  have m2 : a2 ∈ normalize l := by rw [hp]; simp
  have m3 : a3 ∈ normalize l := by rw [hp]; simp
  have m4 : a4 ∈ normalize l := by rw [hp]; simp
  have m5 : a5 ∈ normalize l := by rw [hp]; simp
  have m6 : a6 ∈ normalize l := by rw [hp]; simp
  have m7 : a7 ∈ normalize l := by rw [hp]; simp
  have m8 : a8 ∈ normalize l := by rw [hp]; simp
  have m9 : a9 ∈ normalize l := by rw [hp]; simp
  rw [validate_true_iff]
  refine ⟨h10, ?_, h4⟩
  rw [hp]
  simp only [matchesPanPattern, Bool.and_eq_true]
  exact ⟨⟨⟨⟨⟨⟨⟨⟨⟨pyIsAlpha_isUpperAZ (hasc _ m0) (hlow _ m0) b0,
    pyIsAlpha_isUpperAZ (hasc _ m1) (hlow _ m1) b1⟩,
    pyIsAlpha_isUpperAZ (hasc _ m2) (hlow _ m2) b2⟩,
    pyIsAlpha_isUpperAZ (hasc _ m3) (hlow _ m3) b3⟩,
    pyIsAlpha_isUpperAZ (hasc _ m4) (hlow _ m4) b4⟩,
    pyIsDigit_isAsciiDigit (hasc _ m5) e0⟩,
    pyIsDigit_isAsciiDigit (hasc _ m6) e1⟩,
    pyIsDigit_isAsciiDigit (hasc _ m7) e2⟩,
    pyIsDigit_isAsciiDigit (hasc _ m8) e3⟩,
    pyIsAlpha_isUpperAZ (hasc _ m9) (hlow _ m9) b9⟩

lemma validate_of_decode_ok {l : List Char} {d : DecodedPAN}
    (h : decode l = .ok d) : validate l = true := by
  by_cases hv : validate l = true
  · exact hv
  · exfalso
    have hf : validate l = false := by
      cases hb : validate l
      · rfl
      · exact absurd hb hv
    have hvn : validate (normalize l) = false := by
      rw [validate_normalize]; exact hf
    unfold decode at h
    split_ifs at h with h0 h1
    all_goals first
      | exact Except.noConfusion h
      | (rw [hvn] at h1; exact h1 rfl)

/-- C1: for every input string, `validate` returns true iff, after trimming
surrounding whitespace and upper-casing, the input has length exactly 10,
matches the pattern `[A-Z]{5}[0-9]{4}[A-Z]`, and its 4th character is one of
P, C, H, F, A, T, B, L, J, G. -/
theorem C1_validate_characterization (l : List Char) :
    validate l = true ↔
      ((normalize l).length = 10 ∧ matchesPanPattern (normalize l) = true ∧
        validFourthChars.contains (charAt (normalize l) 3) = true) :=
  validate_true_iff l

/-- C2 counterexample: the claim that `validate_strict` succeeds exactly when
`validate` is true fails on the input "ABCPÑ1234K": the strict checker uses
the Unicode-aware `str.isalpha`, which accepts the Latin-1 letter Ñ, while
`validate` applies the ASCII regex `[A-Z]{5}[0-9]{4}[A-Z]` and rejects it. -/
theorem C2_counterexample_unicode_divergence :
    validate_strict ("ABCPÑ1234K".toList) = .ok true ∧
      validate ("ABCPÑ1234K".toList) = false :=
  ⟨by decide, by decide⟩

/-- C2 amended: `validate` true always implies `validate_strict` succeeds,
and on inputs made only of ASCII characters the two validators agree
exactly; they differ only on non-ASCII letters or digits, which
`str.isalpha`/`str.isdigit` accept but the ASCII regex rejects. -/
theorem C2_amended_strict_vs_validate (l : List Char) :
    (validate l = true → validate_strict l = .ok true) ∧
      (l.all isAsciiChar = true →
        (validate_strict l = .ok true ↔ validate l = true)) :=
  ⟨fun h => validate_imp_strict h,
   fun hA => ⟨fun h => strict_imp_validate_of_ascii hA h,
     fun h => validate_imp_strict h⟩⟩

theorem C2_witness_ascii_agreement :
    validate_strict ("ABCPE1234K".toList) = .ok true :=
  (C2_amended_strict_vs_validate ("ABCPE1234K".toList)).1 (by decide)

/-- C7: `validate` is total: it is a plain boolean-valued function, every
outcome is one of the two boolean values, and the empty input yields false
rather than any failure. -/
theorem C7_validate_total :
    (∀ l : List Char, validate l = true ∨ validate l = false) ∧
      validate [] = false := by
  constructor
  · intro l
    cases hb : validate l
    · exact Or.inr rfl
    · exact Or.inl rfl
  · decide

/-- C8: normalization (trim then upper-case) is idempotent, and `validate`
is invariant under normalization. -/
theorem C8_normalize_idempotent_validate_invariant (l : List Char) :
    normalize (normalize l) = normalize l ∧
      validate (normalize l) = validate l :=
  ⟨normalize_idem l, validate_normalize l⟩

/-- C5: `validate_strict` reports the first-applicable violation in the
fixed priority order (1) empty input, (2) wrong length with the actual
length in the message, (3) first five characters not all alphabetic,
(4) characters 6-9 not all numeric, (5) character 10 not alphabetic,
(6) fourth character outside the holder-type alphabet with the offending
character and the enumerated valid set in the message; in particular
"ABC123" fails with the message naming "exactly 10 characters" and the
actual length 6. -/
theorem C5_strict_error_priority :
    (∀ l : List Char,
      (l = [] → validate_strict l = .error ⟨"PAN number cannot be empty"⟩) ∧
      (l ≠ [] → (normalize l).length ≠ 10 →
        validate_strict l = .error ⟨"PAN must be exactly 10 characters, got " ++
          toString (normalize l).length⟩) ∧
      (l ≠ [] → (normalize l).length = 10 →
        pyStrIsAlpha ((normalize l).take 5) = false →
        validate_strict l = .error ⟨"First 5 characters must be alphabets"⟩) ∧
      (l ≠ [] → (normalize l).length = 10 →
        pyStrIsAlpha ((normalize l).take 5) = true →
        pyStrIsDigit (((normalize l).drop 5).take 4) = false →
        validate_strict l = .error ⟨"Characters 6-9 must be digits"⟩) ∧
      (l ≠ [] → (normalize l).length = 10 →
        pyStrIsAlpha ((normalize l).take 5) = true →
        pyStrIsDigit (((normalize l).drop 5).take 4) = true →
        pyIsAlpha (charAt (normalize l) 9) = false →
        validate_strict l = .error ⟨"Last character must be an alphabet"⟩) ∧
      (l ≠ [] → (normalize l).length = 10 →
        pyStrIsAlpha ((normalize l).take 5) = true →
        pyStrIsDigit (((normalize l).drop 5).take 4) = true →
        pyIsAlpha (charAt (normalize l) 9) = true →
        validFourthChars.contains (charAt (normalize l) 3) = false →
        validate_strict l = .error ⟨"Fourth character \x27" ++
          String.mk [charAt (normalize l) 3] ++
          "\x27 is invalid. Must be one of: P, C, H, F, A, T, B, L, J, G"⟩) ∧
      (l ≠ [] → (normalize l).length = 10 →
        pyStrIsAlpha ((normalize l).take 5) = true →
        pyStrIsDigit (((normalize l).drop 5).take 4) = true →
        pyIsAlpha (charAt (normalize l) 9) = true →
        validFourthChars.contains (charAt (normalize l) 3) = true →
        validate_strict l = .ok true)) ∧
    validate_strict ("ABC123".toList) =
      .error ⟨"PAN must be exactly 10 characters, got 6"⟩ := by
  constructor
  · intro l
    refine ⟨?_, ?_, ?_, ?_, ?_, ?_, ?_⟩
    · intro h0
      simp [validate_strict, h0]
    · intro h0 h1
      simp [validate_strict, h0, h1]
    · intro h0 h1 h2
      simp [validate_strict, h0, h1, h2]
    · intro h0 h1 h2 h3
      simp [validate_strict, h0, h1, h2, h3]
    · intro h0 h1 h2 h3 h4
      simp [validate_strict, h0, h1, h2, h3, h4]
    · intro h0 h1 h2 h3 h4 h5
      simp at h5
      simp [validate_strict, h0, h1, h2, h3, h4, h5]
    · intro h0 h1 h2 h3 h4 h5
      simp at h5
      simp [validate_strict, h0, h1, h2, h3, h4, h5]
  · decide

theorem C5_witness_fourth_char :
    validate_strict ("ABCXE1234K".toList) =
      .error ⟨"Fourth character \x27X\x27 is invalid. Must be one of: P, C, H, F, A, T, B, L, J, G"⟩ := by
  have h := ((C5_strict_error_priority.1 ("ABCXE1234K".toList)).2.2.2.2.2.1)
    (by decide) (by decide) (by decide) (by decide) (by decide) (by decide)
  exact h.trans (by decide)

/-- C3 counterexample: the claim that `get_summary` shows the normalized
PAN fails on " abcpe1234k": the summary sentence interpolates the original
argument, so it contains the raw " abcpe1234k" rather than the normalized
"ABCPE1234K" the claim predicts. -/
theorem C3_counterexample_summary_raw_input :
    get_summary (" abcpe1234k".toList) =
      .ok "PAN  abcpe1234k belongs to a Individual (Person). The surname/last name starts with \x27E\x27. The unique identification number is 1234." ∧
    ("PAN  abcpe1234k belongs to a Individual (Person). The surname/last name starts with \x27E\x27. The unique identification number is 1234." : String) ≠
      "PAN ABCPE1234K belongs to a Individual (Person). The surname/last name starts with \x27E\x27. The unique identification number is 1234." :=
  ⟨by decide, by decide⟩

/-- C3 amended: whenever decoding succeeds, `get_summary` returns exactly
the fixed-template sentence, whose holder category, 5th character and
4-digit sequence come from the normalized PAN but whose displayed PAN
string is the original input as passed, not its normalized form (they
coincide when the input is already normalized). -/
theorem C3_amended_summary_template (l : List Char)
    (h : validate l = true) :
    get_summary l = .ok ("PAN " ++ String.mk l ++ " belongs to a " ++
      ((List.lookup (charAt (normalize l) 3) holder_types).getD "Unknown") ++
      ". The surname/last name starts with \x27" ++
      String.mk [charAt (normalize l) 4] ++
      "\x27. The unique identification number is " ++
      String.mk (((normalize l).drop 5).take 4) ++ ".") := by
  unfold get_summary
  rw [decode_eq_ok h]
  rfl

theorem C3_witness_summary :
    get_summary ("ABCPE1234K".toList) =
      .ok "PAN ABCPE1234K belongs to a Individual (Person). The surname/last name starts with \x27E\x27. The unique identification number is 1234." := by
  rw [C3_amended_summary_template ("ABCPE1234K".toList) (by decide)]
  decide

/-- C4 counterexample: the claim that whitespace-only input raises the
empty-input condition fails on "   ": the truthiness check happens before
normalization, so "   " passes it, normalizes to the empty string, fails
`validate`, and `decode` raises the invalid-format error instead. -/
theorem C4_counterexample_whitespace_input :
    decode ("   ".toList) = .error ⟨"Invalid PAN format: "⟩ ∧
      (InvalidPANError.mk "Invalid PAN format: " ≠
        InvalidPANError.mk "PAN number cannot be empty") :=
  ⟨by decide, by decide⟩

/-- C4 amended: `decode` raises the empty-input condition only when the
input itself is empty before normalization; any other rejected input —
including whitespace-only input, which normalizes to the empty string —
raises the invalid-format condition carrying the normalized string. -/
theorem C4_amended_decode_error_classification (l : List Char) :
    (l = [] → decode l = .error ⟨"PAN number cannot be empty"⟩) ∧
    (l ≠ [] → validate l = false →
      decode l = .error ⟨"Invalid PAN format: " ++ String.mk (normalize l)⟩) ∧
    (l ≠ [] → l.all pyIsSpace = true →
      normalize l = [] ∧ decode l = .error ⟨"Invalid PAN format: "⟩) := by
  refine ⟨?_, ?_, ?_⟩
  · intro h0
    simp [decode, h0]
  · intro h0 hf
    have hvn : validate (normalize l) = false := by
      rw [validate_normalize]; exact hf
    simp [decode, h0, hvn]
  · intro h0 hsp
    have hdrop : l.dropWhile pyIsSpace = [] :=
      List.dropWhile_eq_nil_iff.mpr (List.all_eq_true.mp hsp)
    have hn : normalize l = [] := by
      unfold normalize pyStrip
      rw [hdrop]
      rfl
    have hf : validate l = false := by
      unfold validate
      rw [if_neg h0, hn]
      rfl
    have hvn : validate (normalize l) = false := by
      rw [validate_normalize]; exact hf
    refine ⟨hn, ?_⟩
    have hv0 : validate ([] : List Char) = false := rfl
    simp [decode, h0, hn, hv0]

theorem C4_witness_whitespace :
    decode ("  \t ".toList) = .error ⟨"Invalid PAN format: "⟩ :=
  ((C4_amended_decode_error_classification ("  \t ".toList)).2.2
    (by decide) (by decide)).2

/-- C6: `decode` fails exactly when `validate` is false, `get_summary`
propagates every `decode` failure unchanged, and on success the record has
`is_valid` true and `pan_number` equal to the normalized input — no partial
record is produced. -/
theorem C6_decode_failure_semantics (l : List Char) :
    ((∃ e, decode l = .error e) ↔ validate l = false) ∧
    (∀ e, decode l = .error e → get_summary l = .error e) ∧
    (∀ d, decode l = .ok d →
      d.is_valid = true ∧ d.pan_number = normalize l) := by
  refine ⟨?_, ?_, ?_⟩
  · by_cases h : validate l = true
    · rw [decode_eq_ok h]
      simp [h]
    · have hf : validate l = false := by
        cases hb : validate l
        · rfl
        · exact absurd hb h
      constructor
      · intro _
        exact hf
      · intro _
        by_cases h0 : l = []
        · refine ⟨⟨"PAN number cannot be empty"⟩, ?_⟩
          unfold decode
          rw [if_pos h0]
        · refine ⟨⟨"Invalid PAN format: " ++ String.mk (normalize l)⟩, ?_⟩
          have hvn : validate (normalize l) = false := by
            rw [validate_normalize]; exact hf
          unfold decode
          rw [if_neg h0, hvn]
          rfl
  · intro e he
    unfold get_summary
    rw [he]
  · intro d hd
    unfold decode at hd
    split_ifs at hd with h0 h1
    all_goals first
      | exact Except.noConfusion hd
      | (obtain rfl := Except.ok.inj hd; exact ⟨rfl, rfl⟩)

theorem C6_witness_failure_propagation :
    get_summary ("XX".toList) = .error ⟨"Invalid PAN format: XX"⟩ :=
  (C6_decode_failure_semantics ("XX".toList)).2.1
    ⟨"Invalid PAN format: XX"⟩ (by decide)

/-- C9 counterexample: the claim says the sequential-number purpose at
position `pos` carries digit index `pos - 4`; at position 6 of the decoded
breakdown of "ABCPE1234K" the code reports digit 1 (which is `pos - 5`),
not the digit 2 the claim predicts. -/
theorem C9_counterexample_digit_index :
    (decode ("ABCPE1234K".toList)).map
        (fun d => (d.detailed_breakdown.get? 5).map fun e =>
          (e.position, e.purpose)) =
      .ok (some (6, "Sequential number (digit 1 of 4)")) ∧
    ("Sequential number (digit 1 of 4)" : String) ≠
      "Sequential number (digit 2 of 4)" :=
  ⟨by decide, by decide⟩

/-- C9 amended: for every successful decode, the breakdown has exactly 10
entries with position fields 1..10 in order and characters drawn from the
normalized PAN; positions 1-5 and 10 are tagged "Alphabet" and 6-9 "Digit";
positions 1-3 carry the alphabetic-series purpose, position 4 the resolved
holder category, position 5 the surname-initial purpose, positions 6-9 the
sequential-number purpose with digit index `position - 5`, and position 10
the check-digit purpose. -/
theorem C9_amended_breakdown (l : List Char) (d : DecodedPAN)
    (h : decode l = .ok d) :
    d.detailed_breakdown.length = 10 ∧
    (∀ i, i < 10 →
      ∃ e, d.detailed_breakdown.get? i = some e ∧
        e.position = i + 1 ∧
        e.character = charAt (normalize l) i ∧
        e.type = (if 6 ≤ e.position ∧ e.position ≤ 9 then "Digit"
          else "Alphabet") ∧
        e.purpose =
          (if e.position ≤ 3 then "Part of alphabetic series (AAA-ZZZ)"
           else if e.position = 4 then "Holder status - " ++
             ((List.lookup (charAt (normalize l) 3) holder_types).getD
               "Unknown")
           else if e.position = 5 then "First letter of surname/last name"
           else if e.position ≤ 9 then "Sequential number (digit " ++
             toString (e.position - 5) ++ " of 4)"
           else "Check digit for validation")) := by
  have hv : validate l = true := validate_of_decode_ok h
  rw [decode_eq_ok hv] at h
  obtain rfl := Except.ok.inj h
  have h10 := ((validate_true_iff l).mp hv).1
  obtain ⟨a0, a1, a2, a3, a4, a5, a6, a7, a8, a9, hp⟩ := exists_ten h10
  rw [hp]
  constructor
  · rfl
  · intro i hi
    interval_cases i <;> exact ⟨_, rfl, rfl, rfl, rfl, rfl⟩

theorem C9_witness_breakdown :
    ∃ d, decode ("ABCPE1234K".toList) = .ok d ∧
      d.detailed_breakdown.length = 10 := by
  refine ⟨_, rfl, ?_⟩
  exact (C9_amended_breakdown ("ABCPE1234K".toList) _ rfl).1

/-- C10: for every successful decode, the five component values (of lengths
3, 1, 1, 4, 1) concatenated in order reconstruct exactly the record's
`pan_number` field. -/
theorem C10_components_partition (l : List Char) (d : DecodedPAN)
    (h : decode l = .ok d) :
    (d.components.first_three_letters.value ++
      d.components.fourth_letter.value ++
      d.components.fifth_letter.value ++
      d.components.next_four_digits.value ++
      d.components.last_letter.value = d.pan_number) ∧
    d.components.first_three_letters.value.length = 3 ∧
    d.components.fourth_letter.value.length = 1 ∧
    d.components.fifth_letter.value.length = 1 ∧
    d.components.next_four_digits.value.length = 4 ∧
    d.components.last_letter.value.length = 1 := by
  have hv : validate l = true := validate_of_decode_ok h
  rw [decode_eq_ok hv] at h
  obtain rfl := Except.ok.inj h
  have h10 := ((validate_true_iff l).mp hv).1
  obtain ⟨a0, a1, a2, a3, a4, a5, a6, a7, a8, a9, hp⟩ := exists_ten h10
  rw [hp]
  exact ⟨rfl, rfl, rfl, rfl, rfl, rfl⟩

theorem C10_witness_partition :
    ∃ d, decode ("XYZCH5678M".toList) = .ok d ∧
      d.components.first_three_letters.value ++
        d.components.fourth_letter.value ++
        d.components.fifth_letter.value ++
        d.components.next_four_digits.value ++
        d.components.last_letter.value = d.pan_number := by
  refine ⟨_, rfl, ?_⟩
  exact (C10_components_partition ("XYZCH5678M".toList) _ rfl).1

end Pancard
